import Mathlib

/-!
Verification of the scoring and exam-lifecycle engine of the grade-prediction
app (frontend/src/lib/apiAdapter.ts bundle: examUtils / points sections,
frontend/src/pages/Leaderboard.tsx, frontend/src/pages/Profile.tsx).

Shallow embedding conventions:
* JavaScript numbers that can be `NaN` are modelled as `JsNum := Option ℚ`
  (`none` = NaN, `some q` = the finite value `q`).  Stored point values
  (`Prediction.points1/2`) are modelled as plain rationals (finite numbers).
* `null` / `undefined` is an outer `Option`.
* Calendar dates are modelled as integer day numbers (the TS code normalises
  both dates to local midnight with `setHours(0,0,0,0)` before comparing, so
  only the calendar day matters and the millisecond difference divided by
  86 400 000 is exactly the day difference).
* The TS `getExamStatus` reads the current date from the ambient clock
  (`new Date()`); purity forces the model to take that clock reading as an
  explicit `nowDay` argument.
-/

/-- A JavaScript number that may be `NaN`: `none` is NaN, `some q` a finite
value. -/
abbrev JsNum := Option ℚ

/-- JS subtraction: NaN is absorbing. -/
def jsSub : JsNum → JsNum → JsNum
  | some a, some b => some (a - b)
  | _, _ => none

/-- JS `Math.abs`: NaN is preserved. -/
def jsAbs : JsNum → JsNum
  | some a => some |a|
  | none => none

/-- User roles (types.ts `UserRole`). -/
inductive UserRole
  | student
  | teacher
deriving DecidableEq

/-- types.ts `User` (the password/email fields play no role in the scoring
engine and are omitted). -/
structure User where
  id : String
  username : String
  role : UserRole
deriving DecidableEq

/-- types.ts `ExamStatus`.  The TS value `'open'` is called `opened` here
because `open` is a Lean keyword. -/
inductive ExamStatus
  | opened
  | evaluation
  | closed
deriving DecidableEq

/-- types.ts `Exam`.  `date` is the exam's calendar day number; `grades` is
the optional studentId → grade mapping (an association list; grade values are
JS numbers). -/
structure Exam where
  id : String
  title : String
  subject : String
  description : Option String
  date : ℤ
  isClosed : Bool
  closedAt : Option ℤ
  grades : Option (List (String × JsNum))
deriving DecidableEq

/-- types.ts `Prediction`.  `prediction1/2` are optional JS numbers (so a NaN
prediction is representable); the stored `points1/2` are optional finite
numbers. -/
structure Prediction where
  examId : String
  studentId : String
  prediction1 : Option JsNum
  prediction2 : Option JsNum
  points1 : Option ℚ
  points2 : Option ℚ
deriving DecidableEq

/-- examUtils `getExamStatus`.  In the TS source the current date is read
from the ambient clock (`const now = new Date()`); here the clock reading is
the explicit argument `nowDay`.  Both dates are taken at calendar-day
granularity, so `Math.floor((now - examDate) / 86400000)` is exactly
`nowDay - exam.date`. -/
def getExamStatus (exam : Exam) (nowDay : ℤ) : ExamStatus :=
  if exam.isClosed then
    ExamStatus.closed
  else
    let daysSinceExam := nowDay - exam.date
    if 1 ≤ daysSinceExam ∧ daysSinceExam < 5 then
      ExamStatus.evaluation
    else if 5 ≤ daysSinceExam then
      ExamStatus.closed
    else
      ExamStatus.opened

/-- examUtils `canSubmitTips`: tips are possible while the status is
`open` or `evaluation`. -/
def canSubmitTips (exam : Exam) (nowDay : ℤ) : Bool :=
  let status := getExamStatus exam nowDay
  decide (status = ExamStatus.opened) || decide (status = ExamStatus.evaluation)

/-! ## Point Table (points section of the bundle) -/


/-- The tier table of `calculatePoints`, as a function of the absolute
difference `d`: inclusive upper bounds, checked in ascending order of
tolerance, first match wins. -/
def pointTier (difference : ℚ) : ℕ :=
  if difference = 0 then 5
  else if difference ≤ 1/4 then 4
  else if difference ≤ 1/2 then 3
  else if difference ≤ 3/4 then 2
  else if difference ≤ 1 then 1
  else 0

/-- points `calculatePoints`: `difference = Math.abs(prediction - actualGrade)`,
then the tier chain.  When the difference is NaN every comparison in the
chain is false in JS, so the result is the final `return 0`. -/
def calculatePoints (prediction actualGrade : JsNum) : ℕ :=
  match jsAbs (jsSub prediction actualGrade) with
  | none => 0
  | some difference => pointTier difference

/-- points `calculatePredictionPoints`: returns `undefined` (`none`) when the
prediction is `null`/`undefined`, or when the actual grade is
`null`/`undefined`/NaN; otherwise delegates to `calculatePoints`.  A NaN
prediction is *not* caught by these checks. -/
def calculatePredictionPoints (prediction actualGrade : Option JsNum) :
    Option ℕ :=
  match prediction with
  | none => none
  | some p =>
    match actualGrade with
    | none => none
    | some g =>
      match g with
      | none => none
      | some _ => some (calculatePoints p g)

/-- JS `Math.round`: rounds to the nearest integer, halves toward `+∞`,
i.e. `Math.round(x) = ⌊x + 0.5⌋`. -/
def jsRound (q : ℚ) : ℤ := ⌊q + 1/2⌋

/-- `Math.round(q * 100) / 100` (round to 2 decimal places). -/
def round2 (q : ℚ) : ℚ := ((jsRound (q * 100) : ℤ) : ℚ) / 100

/-- The loop body of `getGradeOptions`: `for (let i = 1; i <= 6; i += 0.25)
options.push(Math.round(i * 100) / 100)`.  The fuel argument only bounds the
number of iterations (25 > the 21 the guard permits), so the fuelled loop
agrees with the TS loop. -/
def gradeLoop : ℕ → ℚ → List ℚ
  | 0, _ => []
  | fuel + 1, i =>
    if i ≤ 6 then round2 i :: gradeLoop fuel (i + 1/4) else []

/-- points `getGradeOptions`.  All quantities reached by the TS loop
(quarters between 1 and 6.25 and their 100-fold multiples) are exactly
representable as binary doubles and every `+`, `*`, `/`, `Math.round` on them
is exact, so the exact-rational model coincides with the floating-point
computation. -/
def getGradeOptions : List ℚ := gradeLoop 25 1

/-! ## Stable descending sort

Model of JS `Array.prototype.sort` with comparator
`(a, b) => b.totalPoints - a.totalPoints`: ES2019 requires `sort` to be
stable, and a stable sort by a single key is uniquely determined by its
input, so any stable implementation — here insertion sort — is a faithful
model. -/


/-- Insert `a` into `l` in front of the first element whose key is not
larger; elements with an equal key stay in front of later-inserted equals. -/
def insertDesc {α : Type} (key : α → ℚ) (a : α) : List α → List α
  | [] => [a]
  | b :: l => if key b ≤ key a then a :: b :: l else b :: insertDesc key a l

/-- Stable sort, descending by `key`. -/
def sortDesc {α : Type} (key : α → ℚ) : List α → List α
  | [] => []
  | a :: l => insertDesc key a (sortDesc key l)

/-! ## Global leaderboard (pages/Leaderboard.tsx, `loadLeaderboard`) -/


/-- A leaderboard row before rank decoration (the element shape of
`studentTotals` in `loadLeaderboard`). -/
structure PreEntry where
  studentId : String
  studentName : String
  totalPoints : ℚ
deriving DecidableEq

/-- types.ts `LeaderboardEntry`. -/
structure LeaderboardEntry where
  studentId : String
  studentName : String
  totalPoints : ℚ
  rank : ℕ
deriving DecidableEq

/-- `exam.grades[sid]`: `undefined` when the mapping is absent or has no
entry for `sid`. -/
def gradeLookup (exam : Exam) (sid : String) : Option JsNum :=
  match exam.grades with
  | none => none
  | some g => g.lookup sid

/-- The nullish-coalescing chain
`stored ?? calculatePredictionPoints(...) ?? 0` of `loadLeaderboard`. -/
def predictionPointsValue (stored : Option ℚ) (computed : Option ℕ) : ℚ :=
  match stored with
  | some v => v
  | none =>
    match computed with
    | some n => (n : ℚ)
    | none => 0

/-- A prediction record's contribution for one exam in `loadLeaderboard`:
`points1 ?? calculatePredictionPoints(prediction1, grade) ?? 0` plus the same
for the second prediction. -/
def examContribution (pred : Prediction) (grade : Option JsNum) : ℚ :=
  predictionPointsValue pred.points1
      (calculatePredictionPoints pred.prediction1 grade)
    + predictionPointsValue pred.points2
        (calculatePredictionPoints pred.prediction2 grade)

/-- The `totalPoints` accumulation of `loadLeaderboard` for one student:
iterate over all exams; an exam is considered when its resolved status is
`closed` and `exam.grades` is truthy (note: a JS object is truthy even when
empty, so this does *not* test for a grade entry of the student); when the
student has a prediction record for it, add that record's contribution. -/
def studentTotalPoints (exams : List Exam) (preds : List Prediction)
    (nowDay : ℤ) (s : User) : ℚ :=
  exams.foldl
    (fun totalPoints exam =>
      if getExamStatus exam nowDay = ExamStatus.closed ∧ exam.grades.isSome then
        match preds.find?
            (fun p => decide (p.examId = exam.id ∧ p.studentId = s.id)) with
        | some prediction =>
          totalPoints + examContribution prediction (gradeLookup exam s.id)
        | none => totalPoints
      else totalPoints)
    0

/-- The unsorted `studentTotals` array of `loadLeaderboard`: one row per
`student`-role user. -/
def studentTotals (exams : List Exam) (users : List User)
    (preds : List Prediction) (nowDay : ℤ) : List PreEntry :=
  (users.filter (fun u => decide (u.role = UserRole.student))).map
    (fun student =>
      { studentId := student.id
        studentName := student.username
        totalPoints := studentTotalPoints exams preds nowDay student })

/-- The `.map((entry, index) => ({...entry, rank: index + 1}))` decoration,
with `k` the rank of the first element. -/
def addRanks : ℕ → List PreEntry → List LeaderboardEntry
  | _, [] => []
  | k, e :: l =>
    { studentId := e.studentId, studentName := e.studentName,
      totalPoints := e.totalPoints, rank := k } :: addRanks (k + 1) l

/-- `loadLeaderboard`: sort the totals descending (stably), then decorate
with 1-based ranks. -/
def globalLeaderboard (exams : List Exam) (users : List User)
    (preds : List Prediction) (nowDay : ℤ) : List LeaderboardEntry :=
  addRanks 1 (sortDesc (fun e => e.totalPoints)
    (studentTotals exams users preds nowDay))

/-- Forget the rank decoration. -/
def stripRank (e : LeaderboardEntry) : PreEntry :=
  { studentId := e.studentId, studentName := e.studentName,
    totalPoints := e.totalPoints }

/-- Modelled from the claim C1 text (refinement comparison): the total is
the sum over exactly those exams whose resolved status is `closed` AND which
have a grade entry for the student, of the contribution of the student's
prediction record (if any). -/
def claimStudentTotalPoints (exams : List Exam) (preds : List Prediction)
    (nowDay : ℤ) (s : User) : ℚ :=
  ((exams.filter (fun exam =>
      decide (getExamStatus exam nowDay = ExamStatus.closed
        ∧ (gradeLookup exam s.id).isSome = true))).map
    (fun exam =>
      match preds.find?
          (fun p => decide (p.examId = exam.id ∧ p.studentId = s.id)) with
      | some prediction => examContribution prediction (gradeLookup exam s.id)
      | none => 0)).sum

/-- The amended C1 total: the sum over exams whose resolved status is
`closed` and whose grades mapping is *present* (possibly without an entry
for the student), of the contribution of the student's prediction record
(if any). -/
def amendedStudentTotalPoints (exams : List Exam) (preds : List Prediction)
    (nowDay : ℤ) (s : User) : ℚ :=
  ((exams.filter (fun exam =>
      decide (getExamStatus exam nowDay = ExamStatus.closed
        ∧ exam.grades.isSome = true))).map
    (fun exam =>
      match preds.find?
          (fun p => decide (p.examId = exam.id ∧ p.studentId = s.id)) with
      | some prediction => examContribution prediction (gradeLookup exam s.id)
      | none => 0)).sum

/-! ## Per-student results filter vs leaderboard filter (C9) -/


/-- JS truthiness of the grade value `exam.grades[uid]`: an absent entry,
an absent mapping, a NaN grade, and a grade of 0 are all falsy. -/
def jsTruthyGrade : Option JsNum → Bool
  | some (some g) => decide (g ≠ 0)
  | _ => false

/-- The row filter of `loadExamResults` (Profile.tsx line 33):
`exam.isClosed && exam.grades && exam.grades[user.id]`. -/
def profileIncludesExam (exam : Exam) (uid : String) : Bool :=
  exam.isClosed && exam.grades.isSome && jsTruthyGrade (gradeLookup exam uid)

/-- The exam filter of `loadLeaderboard` (Leaderboard.tsx line 43):
`getExamStatus(exam) === 'closed' && exam.grades`. -/
def leaderboardCountsExam (exam : Exam) (nowDay : ℤ) : Bool :=
  decide (getExamStatus exam nowDay = ExamStatus.closed) && exam.grades.isSome

/-! ## Per-exam ranking (pages/Profile.tsx, `loadExamResults`) -/


/-- The element shape of the `examRankings` array in `loadExamResults`. -/
structure ExamRankEntry where
  studentId : String
  totalPoints : ℚ
deriving DecidableEq

/-- `x || 0` on an optional finite number: `undefined` and `0` are falsy. -/
def jsOrZero (x : Option ℚ) : ℚ :=
  match x with
  | none => 0
  | some v => if v = 0 then 0 else v

/-- JS `Array.prototype.findIndex`: index of the first match, `-1` when
there is none. -/
def jsFindIndex {α : Type} (p : α → Bool) : List α → ℤ
  | [] => -1
  | a :: l =>
    if p a then 0
    else
      let r := jsFindIndex p l
      if r = -1 then -1 else r + 1

/-- The unsorted per-exam rankings of `loadExamResults`: for every student
of the cohort, the total is `(pred?.points1 || 0) + (pred?.points2 || 0)`
where `pred` is found among the predictions filtered to this exam — stored
points only, no Point-Table fallback. -/
def examRankingsBase (students : List User) (preds : List Prediction)
    (examId : String) : List ExamRankEntry :=
  students.map (fun student =>
    let pred := (preds.filter (fun p => decide (p.examId = examId))).find?
      (fun p => decide (p.studentId = student.id))
    { studentId := student.id
      totalPoints := jsOrZero (pred.bind (fun p => p.points1))
        + jsOrZero (pred.bind (fun p => p.points2)) })

/-- The sorted per-exam rankings (`.sort((a, b) => b.totalPoints -
a.totalPoints)`, a stable sort). -/
def examRankings (students : List User) (preds : List Prediction)
    (examId : String) : List ExamRankEntry :=
  sortDesc (fun e => e.totalPoints) (examRankingsBase students preds examId)

/-- `const userRank = examRankings.findIndex((r) => r.studentId === user.id) + 1`. -/
def userExamRank (students : List User) (preds : List Prediction)
    (examId : String) (uid : String) : ℤ :=
  jsFindIndex (fun r => decide (r.studentId = uid))
    (examRankings students preds examId) + 1

/-- `examRankings.find((r) => r.studentId === user.id)?.totalPoints || 0`. -/
def userExamTotalPoints (students : List User) (preds : List Prediction)
    (examId : String) (uid : String) : ℚ :=
  jsOrZero (((examRankings students preds examId).find?
    (fun r => decide (r.studentId = uid))).map (fun r => r.totalPoints))

/-- Claim C2: exam status resolution.  If the manual-closed flag is set the
resolved status is `closed` regardless of the dates; otherwise, with
`daysSinceExam = nowDay - exam.date`, the status is `open` when
`daysSinceExam < 1`, `evaluation` when `1 ≤ daysSinceExam < 5`, and `closed`
when `daysSinceExam ≥ 5`. -/
theorem examStatus_resolution (exam : Exam) (nowDay : ℤ) :
    getExamStatus exam nowDay =
      if exam.isClosed then ExamStatus.closed
      else if nowDay - exam.date < 1 then ExamStatus.opened
      else if nowDay - exam.date < 5 then ExamStatus.evaluation
      else ExamStatus.closed := by
  unfold getExamStatus
  by_cases hc : exam.isClosed
  · simp [hc]
  · simp only [hc, if_false, Bool.false_eq_true]
    split_ifs with h1 h2 h3 h4 h5 <;> first | rfl | omega

/-- Claim C3: Point Table shape.  `calculatePoints` on finite inputs is the
tier function of `d = |p - a|`; that tier function (restricted to the
realisable differences) is monotonically non-increasing in `d`; the result is
5 iff `d = 0`; and the result is 0 for every `d > 1`. -/
theorem calculatePoints_tier_shape (p a p' a' : ℚ) :
    calculatePoints (some p) (some a) = pointTier |p - a|
    ∧ (|p - a| ≤ |p' - a'| →
        calculatePoints (some p') (some a') ≤ calculatePoints (some p) (some a))
    ∧ (calculatePoints (some p) (some a) = 5 ↔ |p - a| = 0)
    ∧ (1 < |p - a| → calculatePoints (some p) (some a) = 0) := by
  have habs : ∀ x y : ℚ, calculatePoints (some x) (some y) = pointTier |x - y| := by
    intro x y
    rfl
  have hmono : ∀ d d' : ℚ, 0 ≤ d → d ≤ d' → pointTier d' ≤ pointTier d := by
    intro d d' hd hdd
    unfold pointTier
    split_ifs <;>
      first
        | omega
        | (exfalso; linarith)
        | (exfalso; apply_assumption; linarith)
  refine ⟨habs p a, ?_, ?_, ?_⟩
  · intro h
    rw [habs, habs]
    exact hmono _ _ (abs_nonneg _) h
  · rw [habs]
    constructor
    · intro h5
      by_contra hne
      have hpos : 0 < |p - a| := lt_of_le_of_ne (abs_nonneg _) (Ne.symm hne)
      unfold pointTier at h5
      split_ifs at h5 <;> omega
    · intro h0
      unfold pointTier
      simp [h0]
  · intro hgt
    rw [habs]
    unfold pointTier
    have h1 : ¬ (|p - a| = 0) := by intro h; linarith
    have h2 : ¬ (|p - a| ≤ 1/4) := by linarith
    have h3 : ¬ (|p - a| ≤ 1/2) := by linarith
    have h4 : ¬ (|p - a| ≤ 3/4) := by linarith
    have h5 : ¬ (|p - a| ≤ 1) := by linarith
    rw [if_neg h1, if_neg h2, if_neg h3, if_neg h4, if_neg h5]

/-- Witness for C3 at concrete inputs: the monotonicity hypothesis is
discharged at `|2 - 9/4| = 1/4 ≤ 1/2 = |2 - 5/2|`, and the `d > 1` hypothesis
at `|2 - 7/2| = 3/2 > 1`. -/
theorem calculatePoints_tier_shape_witness :
    calculatePoints (some (9/4)) (some 2) ≤ calculatePoints (some 2) (some 2)
    ∧ calculatePoints (some (7/2)) (some 2) = 0 :=
  ⟨(calculatePoints_tier_shape 2 2 (9/4) 2).2.1
      (by rw [sub_self, abs_zero]; exact abs_nonneg _),
   (calculatePoints_tier_shape (7/2) 2 (7/2) 2).2.2.2
      (by rw [abs_of_nonneg (by norm_num)]; norm_num)⟩

/-- Claim C4: null-safe points wrapper.  The wrapper returns `undefined`
exactly when the prediction is absent or the actual grade is absent or NaN —
so an absent/NaN input is never silently scored as 0; in particular
`points(undefined, 4.0) = undefined` and `points(4.0, NaN) = undefined`. -/
theorem calculatePredictionPoints_null_safe (p g : Option JsNum) :
    (calculatePredictionPoints p g = none ↔
      p = none ∨ g = none ∨ g = some none)
    ∧ calculatePredictionPoints none (some (some 4)) = none
    ∧ calculatePredictionPoints (some (some 4)) (some none) = none := by
  refine ⟨?_, rfl, rfl⟩
  cases p with
  | none => simp [calculatePredictionPoints]
  | some pv =>
    cases g with
    | none => simp [calculatePredictionPoints]
    | some gv =>
      cases gv with
      | none => simp [calculatePredictionPoints]
      | some gq => simp [calculatePredictionPoints]

/-- Claim C10: NaN asymmetry of the null-safe wrapper.  For every finite
actual grade `a`, a NaN prediction is not caught by the missing-value checks
and is scored as a real `0` (`some 0`), whereas a NaN actual grade yields
`undefined` (`none`). -/
theorem calculatePredictionPoints_nan_asymmetry (a : ℚ) :
    calculatePredictionPoints (some none) (some (some a)) = some 0
    ∧ calculatePredictionPoints (some (some a)) (some none) = none := by
  constructor
  · rfl
  · rfl

/-- Claim C8: grade domain generator.  `getGradeOptions` has exactly 21
entries, first 1.0 and last 6.0, consecutive entries differ by exactly 0.25,
and entry `k` equals the exact quarter-step value `1 + 0.25·k` (so the
deviation from it is 0 ≤ 0.001).  In the exact-rational model of the TS loop
every floating-point operation is exact (quarters up to 6.25 and their
100-fold multiples are representable doubles), so the rounding step is the
identity and there is no drift. -/
theorem gradeOptions_domain :
    getGradeOptions.length = 21
    ∧ getGradeOptions.head? = some 1
    ∧ getGradeOptions.getLast? = some 6
    ∧ List.Chain' (fun x y : ℚ => y - x = 1/4) getGradeOptions
    ∧ getGradeOptions = (List.range 21).map (fun k => 1 + (k : ℚ) / 4)
    ∧ (getGradeOptions.zip ((List.range 21).map (fun k => 1 + (k : ℚ) / 4))).all
        (fun pr => decide (|pr.1 - pr.2| ≤ 1/1000)) = true := by
  have L : getGradeOptions =
      [1, 5/4, 3/2, 7/4, 2, 9/4, 5/2, 11/4, 3, 13/4, 7/2, 15/4, 4,
       17/4, 9/2, 19/4, 5, 21/4, 11/2, 23/4, 6] := by
    norm_num [getGradeOptions, gradeLoop, round2, jsRound]
  have R : (List.range 21).map (fun k => 1 + (k : ℚ) / 4) =
      [1, 5/4, 3/2, 7/4, 2, 9/4, 5/2, 11/4, 3, 13/4, 7/2, 15/4, 4,
       17/4, 9/2, 19/4, 5, 21/4, 11/2, 23/4, 6] := by
    norm_num [List.range_succ]
  refine ⟨?_, ?_, ?_, ?_, ?_, ?_⟩
  · rw [L]; rfl
  · rw [L]; rfl
  · rw [L]; norm_num [List.getLast?]
  · rw [L]; norm_num [List.chain'_cons, List.chain'_singleton]
  · rw [L, R]
  · rw [L, R]; norm_num [List.zip, List.zipWith, List.all]

theorem mem_insertDesc {α : Type} (key : α → ℚ) (a x : α) (l : List α) :
    x ∈ insertDesc key a l ↔ x = a ∨ x ∈ l := by
  induction l with
  | nil => simp [insertDesc]
  | cons b l ih =>
    by_cases h : key b ≤ key a
    · simp [insertDesc, h]
    · simp only [insertDesc, if_neg h, List.mem_cons, ih]
      tauto

theorem pairwise_insertDesc {α : Type} (key : α → ℚ) (a : α) (l : List α)
    (hl : l.Pairwise (fun x y => key y ≤ key x)) :
    (insertDesc key a l).Pairwise (fun x y => key y ≤ key x) := by
  induction l with
  | nil => simp [insertDesc]
  | cons b l ih =>
    rcases List.pairwise_cons.mp hl with ⟨hb, hl'⟩
    by_cases h : key b ≤ key a
    · rw [insertDesc, if_pos h]
      refine List.pairwise_cons.mpr ⟨?_, hl⟩
      intro c hc
      rcases List.mem_cons.mp hc with rfl | hc
      · exact h
      · exact le_trans (hb c hc) h
    · rw [insertDesc, if_neg h]
      refine List.pairwise_cons.mpr ⟨?_, ih hl'⟩
      intro c hc
      rcases (mem_insertDesc key a c l).mp hc with rfl | hc
      · exact le_of_lt (lt_of_not_le h)
      · exact hb c hc

theorem pairwise_sortDesc {α : Type} (key : α → ℚ) (l : List α) :
    (sortDesc key l).Pairwise (fun x y => key y ≤ key x) := by
  induction l with
  | nil => exact List.Pairwise.nil
  | cons a l ih => exact pairwise_insertDesc key a _ ih

theorem filter_insertDesc {α : Type} (key : α → ℚ) (q : ℚ) (a : α)
    (l : List α) :
    (insertDesc key a l).filter (fun e => decide (key e = q)) =
      if key a = q then a :: l.filter (fun e => decide (key e = q))
      else l.filter (fun e => decide (key e = q)) := by
  induction l with
  | nil => by_cases h : key a = q <;> simp [insertDesc, h]
  | cons b l ih =>
    by_cases hba : key b ≤ key a
    · rw [insertDesc, if_pos hba]
      by_cases ha : key a = q <;> simp [List.filter_cons, ha]
    · rw [insertDesc, if_neg hba]
      by_cases ha : key a = q
      · have hb : ¬ (key b = q) := by
          intro hb
          exact hba (by rw [hb, ha])
        simp [List.filter_cons, ha, hb, ih]
      · by_cases hb : key b = q <;> simp [List.filter_cons, ha, hb, ih]

theorem filter_sortDesc {α : Type} (key : α → ℚ) (q : ℚ) (l : List α) :
    (sortDesc key l).filter (fun e => decide (key e = q)) =
      l.filter (fun e => decide (key e = q)) := by
  induction l with
  | nil => rfl
  | cons a l ih =>
    rw [sortDesc, filter_insertDesc]
    by_cases ha : key a = q <;> simp [List.filter_cons, ha, ih]

theorem perm_insertDesc {α : Type} (key : α → ℚ) (a : α) (l : List α) :
    List.Perm (insertDesc key a l) (a :: l) := by
  induction l with
  | nil => exact List.Perm.refl _
  | cons b l ih =>
    by_cases h : key b ≤ key a
    · rw [insertDesc, if_pos h]
    · rw [insertDesc, if_neg h]
      exact (ih.cons b).trans (List.Perm.swap a b l)

theorem perm_sortDesc {α : Type} (key : α → ℚ) (l : List α) :
    List.Perm (sortDesc key l) l := by
  induction l with
  | nil => exact List.Perm.refl _
  | cons a l ih => exact (perm_insertDesc key a _).trans (ih.cons a)

theorem stripRank_addRanks (k : ℕ) (l : List PreEntry) :
    (addRanks k l).map stripRank = l := by
  induction l generalizing k with
  | nil => rfl
  | cons e l ih => simp [addRanks, stripRank, ih]

theorem rank_addRanks (k : ℕ) (l : List PreEntry) :
    (addRanks k l).map (fun e => e.rank) = List.range' k l.length := by
  induction l generalizing k with
  | nil => rfl
  | cons e l ih => simp [addRanks, List.range'_succ, ih]

theorem mem_addRanks_totalPoints {k : ℕ} {l : List PreEntry}
    {e : LeaderboardEntry} (he : e ∈ addRanks k l) :
    ∃ x ∈ l, e.totalPoints = x.totalPoints := by
  induction l generalizing k with
  | nil => cases he
  | cons x l ih =>
    rcases List.mem_cons.mp he with rfl | he'
    · exact ⟨x, List.mem_cons_self x l, rfl⟩
    · rcases ih he' with ⟨y, hy, hey⟩
      exact ⟨y, List.mem_cons_of_mem x hy, hey⟩

theorem studentId_addRanks (k : ℕ) (l : List PreEntry) :
    (addRanks k l).map (fun e => e.studentId) =
      l.map (fun e => e.studentId) := by
  induction l generalizing k with
  | nil => rfl
  | cons e l ih => simp [addRanks, ih]

theorem pairwise_addRanks {k : ℕ} {l : List PreEntry}
    (hl : l.Pairwise (fun x y => y.totalPoints ≤ x.totalPoints)) :
    (addRanks k l).Pairwise (fun x y => y.totalPoints ≤ x.totalPoints) := by
  induction l generalizing k with
  | nil => exact List.Pairwise.nil
  | cons e l ih =>
    rcases List.pairwise_cons.mp hl with ⟨he, hl'⟩
    refine List.pairwise_cons.mpr ⟨?_, ih hl'⟩
    intro c hc
    rcases mem_addRanks_totalPoints hc with ⟨y, hy, hcy⟩
    rw [hcy]
    exact he y hy

/-- Claim C5: leaderboard ordering and rank assignment.  The output of
`globalLeaderboard` is sorted descending by `totalPoints`; ties keep the
input (roster) order of the unsorted `studentTotals` list — the filter at
every key value is unchanged by the sort; ranks are exactly
`1, 2, …, length` in order; and a second call on unchanged inputs yields the
identical output (the model is pure: the TS code sorts a freshly mapped
array, so the input collections are not mutated). -/
theorem globalLeaderboard_sorted_stable_ranked (exams : List Exam)
    (users : List User) (preds : List Prediction) (nowDay : ℤ) :
    (globalLeaderboard exams users preds nowDay).Pairwise
      (fun a b => b.totalPoints ≤ a.totalPoints)
    ∧ (∀ q : ℚ,
        ((globalLeaderboard exams users preds nowDay).map stripRank).filter
            (fun e => decide (e.totalPoints = q)) =
          (studentTotals exams users preds nowDay).filter
            (fun e => decide (e.totalPoints = q)))
    ∧ (globalLeaderboard exams users preds nowDay).map (fun e => e.rank) =
        List.range' 1 (studentTotals exams users preds nowDay).length
    ∧ globalLeaderboard exams users preds nowDay =
        globalLeaderboard exams users preds nowDay := by
  refine ⟨?_, ?_, ?_, rfl⟩
  · exact pairwise_addRanks (pairwise_sortDesc _ _)
  · intro q
    rw [globalLeaderboard, stripRank_addRanks]
    exact filter_sortDesc (fun e : PreEntry => e.totalPoints) q _
  · rw [globalLeaderboard, rank_addRanks,
      (perm_sortDesc (fun e : PreEntry => e.totalPoints)
        (studentTotals exams users preds nowDay)).length_eq]

/-- Folding `if c e then acc + g e else acc` over a list sums `g` over the
elements satisfying `c`. -/
theorem foldl_cond_add_eq_sum {β : Type} (c : β → Prop) [DecidablePred c]
    (g : β → ℚ) (l : List β) :
    ∀ init : ℚ,
      l.foldl (fun acc e => if c e then acc + g e else acc) init =
        init + ((l.filter (fun e => decide (c e))).map g).sum := by
  induction l with
  | nil => intro init; simp
  | cons e l ih =>
    intro init
    by_cases h : c e
    · simp [List.foldl_cons, List.filter_cons, h, ih, add_assoc]
    · simp [List.foldl_cons, List.filter_cons, h, ih]

/-- Claim C1 (amended): every student's `totalPoints` is the sum, over
exactly those exams whose resolved status is `closed` and whose grades
mapping is present — whether or not it contains an entry for that student —
and for which the student has a prediction record, of
`(points1 ?? PointTable(prediction1, grade) ?? 0) +
(points2 ?? PointTable(prediction2, grade) ?? 0)` (a missing grade entry
makes the Point-Table fallback undefined, hence 0, but stored points still
count); every student of the roster appears in the leaderboard exactly once,
including students with zero contributing exams. -/
theorem globalLeaderboard_totalPoints_amended (exams : List Exam)
    (users : List User) (preds : List Prediction) (nowDay : ℤ) :
    (∀ s : User, studentTotalPoints exams preds nowDay s =
        amendedStudentTotalPoints exams preds nowDay s)
    ∧ studentTotals exams users preds nowDay =
        (users.filter (fun u => decide (u.role = UserRole.student))).map
          (fun s =>
            { studentId := s.id, studentName := s.username,
              totalPoints := amendedStudentTotalPoints exams preds nowDay s })
    ∧ List.Perm
        ((globalLeaderboard exams users preds nowDay).map (fun e => e.studentId))
        ((users.filter (fun u => decide (u.role = UserRole.student))).map
          (fun u => u.id)) := by
  have htot : ∀ s : User, studentTotalPoints exams preds nowDay s =
      amendedStudentTotalPoints exams preds nowDay s := by
    intro s
    rw [studentTotalPoints]
    have hext : exams.foldl
        (fun totalPoints exam =>
          if getExamStatus exam nowDay = ExamStatus.closed ∧ exam.grades.isSome then
            match preds.find?
                (fun p => decide (p.examId = exam.id ∧ p.studentId = s.id)) with
            | some prediction =>
              totalPoints + examContribution prediction (gradeLookup exam s.id)
            | none => totalPoints
          else totalPoints) 0 =
        exams.foldl
          (fun totalPoints exam =>
            if getExamStatus exam nowDay = ExamStatus.closed
                ∧ exam.grades.isSome = true then
              totalPoints +
                (match preds.find?
                    (fun p => decide (p.examId = exam.id ∧ p.studentId = s.id)) with
                | some prediction =>
                  examContribution prediction (gradeLookup exam s.id)
                | none => 0)
            else totalPoints) 0 := by
      apply List.foldl_ext
      intro acc exam _
      by_cases hc : getExamStatus exam nowDay = ExamStatus.closed
          ∧ exam.grades.isSome = true
      · rw [if_pos hc, if_pos hc]
        cases preds.find?
            (fun p => decide (p.examId = exam.id ∧ p.studentId = s.id)) with
        | none => rw [add_zero]
        | some prediction => rfl
      · rw [if_neg hc, if_neg hc]
    rw [hext, foldl_cond_add_eq_sum
      (fun exam => getExamStatus exam nowDay = ExamStatus.closed
        ∧ exam.grades.isSome = true), zero_add]
    rfl
  refine ⟨htot, ?_, ?_⟩
  · rw [studentTotals]
    apply List.map_congr_left
    intro s _
    rw [htot s]
  · rw [globalLeaderboard, studentId_addRanks]
    have hperm := (perm_sortDesc (fun e : PreEntry => e.totalPoints)
      (studentTotals exams users preds nowDay)).map
        (fun e : PreEntry => e.studentId)
    refine hperm.trans ?_
    rw [studentTotals, List.map_map]
    exact List.Perm.refl _

/-- Counterexample to claim C1 as stated: take one exam that is manually
closed whose grades mapping is present but empty (a truthy JS object with no
entry for the student), and a prediction record for student `s1` with stored
`points1 = 3`.  The code's total is 3 — the exam contributes although there
is no grade entry for the student — while the claim's formula yields 0. -/
theorem globalLeaderboard_totalPoints_counterexample :
    studentTotalPoints
        [{ id := "e1", title := "Algebra", subject := "Math",
           description := none, date := 0, isClosed := true, closedAt := none,
           grades := some [] }]
        [{ examId := "e1", studentId := "s1", prediction1 := none,
           prediction2 := none, points1 := some 3, points2 := none }]
        0
        { id := "s1", username := "Ann", role := UserRole.student } = 3
    ∧ claimStudentTotalPoints
        [{ id := "e1", title := "Algebra", subject := "Math",
           description := none, date := 0, isClosed := true, closedAt := none,
           grades := some [] }]
        [{ examId := "e1", studentId := "s1", prediction1 := none,
           prediction2 := none, points1 := some 3, points2 := none }]
        0
        { id := "s1", username := "Ann", role := UserRole.student } = 0 := by
  constructor
  · simp +decide [studentTotalPoints, getExamStatus, gradeLookup,
      examContribution, predictionPointsValue, calculatePredictionPoints,
      List.find?]
  · simp +decide [claimStudentTotalPoints, getExamStatus, gradeLookup,
      List.filter]

/-! ## Determinism of the status resolver (C7) -/


/-- Counterexample to claim C7 as stated: in the TS source `getExamStatus`
has the single parameter `exam` and reads the current date from the ambient
clock (`const now = new Date()` in `getExamStatus`), so its result is *not*
determined by its explicit inputs: the same exam record resolves to `open`
when the ambient clock reads the exam day and to `closed` ten days later. -/
theorem getExamStatus_ambient_clock_counterexample :
    getExamStatus
        { id := "e1", title := "Algebra", subject := "Math",
          description := none, date := 0, isClosed := false, closedAt := none,
          grades := none } 0 = ExamStatus.opened
    ∧ getExamStatus
        { id := "e1", title := "Algebra", subject := "Math",
          description := none, date := 0, isClosed := false, closedAt := none,
          grades := none } 10 = ExamStatus.closed := by
  constructor
  · simp +decide [getExamStatus]
  · simp +decide [getExamStatus]

/-- Claim C7 (amended): `getExamStatus` reads the current date from the
ambient clock rather than taking it as a parameter; modelling that clock
reading as an explicit argument, the resolver — and the submission
eligibility built on it — is deterministic: it depends only on the
manual-closed flag and the day difference `now − examDate`, so two
evaluations with the same explicit inputs produce the same output. -/
theorem getExamStatus_deterministic (e₁ e₂ : Exam) (n₁ n₂ : ℤ)
    (hflag : e₁.isClosed = e₂.isClosed)
    (hdiff : n₁ - e₁.date = n₂ - e₂.date) :
    getExamStatus e₁ n₁ = getExamStatus e₂ n₂
    ∧ canSubmitTips e₁ n₁ = canSubmitTips e₂ n₂ := by
  have hs : getExamStatus e₁ n₁ = getExamStatus e₂ n₂ := by
    unfold getExamStatus
    rw [hflag, hdiff]
  refine ⟨hs, ?_⟩
  unfold canSubmitTips
  rw [hs]

/-- Witness for C7's amended theorem at concrete inputs: two different exams
with the same flag and the same day difference resolve identically. -/
theorem getExamStatus_deterministic_witness :
    getExamStatus
        { id := "a", title := "T", subject := "S", description := none,
          date := 5, isClosed := false, closedAt := none, grades := none } 8 =
      getExamStatus
        { id := "b", title := "U", subject := "V", description := none,
          date := 100, isClosed := false, closedAt := none, grades := none } 103
    ∧ canSubmitTips
        { id := "a", title := "T", subject := "S", description := none,
          date := 5, isClosed := false, closedAt := none, grades := none } 8 =
      canSubmitTips
        { id := "b", title := "U", subject := "V", description := none,
          date := 100, isClosed := false, closedAt := none, grades := none } 103 :=
  getExamStatus_deterministic _ _ 8 103 rfl (by decide)

/-- Claim C9: the per-student results list includes a row for an exam only
when the manual-closed flag is set and a grade entry exists for the student;
an exam closed solely by the 5-day date rule (flag still false) produces no
result row even though it passes the leaderboard's status-based filter and
contributes to the student's total there. -/
theorem profile_filter_vs_leaderboard_filter :
    (∀ (exam : Exam) (uid : String), profileIncludesExam exam uid = true →
      exam.isClosed = true ∧ (gradeLookup exam uid).isSome = true)
    ∧ (profileIncludesExam
          { id := "e1", title := "Algebra", subject := "Math",
            description := none, date := 0, isClosed := false,
            closedAt := none, grades := some [("s1", some 4)] }
          "s1" = false
       ∧ getExamStatus
          { id := "e1", title := "Algebra", subject := "Math",
            description := none, date := 0, isClosed := false,
            closedAt := none, grades := some [("s1", some 4)] }
          10 = ExamStatus.closed
       ∧ leaderboardCountsExam
          { id := "e1", title := "Algebra", subject := "Math",
            description := none, date := 0, isClosed := false,
            closedAt := none, grades := some [("s1", some 4)] }
          10 = true
       ∧ studentTotalPoints
          [{ id := "e1", title := "Algebra", subject := "Math",
             description := none, date := 0, isClosed := false,
             closedAt := none, grades := some [("s1", some 4)] }]
          [{ examId := "e1", studentId := "s1",
             prediction1 := some (some 4), prediction2 := none,
             points1 := none, points2 := none }]
          10
          { id := "s1", username := "Ann", role := UserRole.student } = 5) := by
  constructor
  · intro exam uid h
    rw [profileIncludesExam, Bool.and_assoc, Bool.and_eq_true,
      Bool.and_eq_true] at h
    refine ⟨h.1, ?_⟩
    rcases h.2.2 with htruthy
    cases hval : gradeLookup exam uid with
    | none => rw [hval] at htruthy; cases htruthy
    | some v => rfl
  · refine ⟨?_, ?_, ?_, ?_⟩
    · simp +decide [profileIncludesExam, gradeLookup, jsTruthyGrade,
        List.lookup]
    · simp +decide [getExamStatus]
    · simp +decide [leaderboardCountsExam, getExamStatus]
    · simp +decide [studentTotalPoints, getExamStatus, gradeLookup,
        examContribution, predictionPointsValue, calculatePredictionPoints,
        calculatePoints, jsSub, jsAbs, pointTier, List.find?, List.lookup]

theorem jsOrZero_some (v : ℚ) : jsOrZero (some v) = v := by
  rw [jsOrZero]
  by_cases h : v = 0
  · rw [if_pos h, h]
  · rw [if_neg h]

/-- `jsFindIndex` never returns anything below `-1`. -/
theorem jsFindIndex_cases {α : Type} (p : α → Bool) (l : List α) :
    jsFindIndex p l = -1 ∨ ∃ k : ℕ, jsFindIndex p l = (k : ℤ) := by
  induction l with
  | nil => exact Or.inl rfl
  | cons a l ih =>
    by_cases hp : p a
    · exact Or.inr ⟨0, by simp [jsFindIndex, hp]⟩
    · rcases ih with h1 | ⟨k, hk⟩
      · exact Or.inl (by simp [jsFindIndex, hp, h1])
      · refine Or.inr ⟨k + 1, ?_⟩
        have hne : jsFindIndex p l ≠ -1 := by rw [hk]; omega
        simp [jsFindIndex, hp, if_neg hne, hk]

/-- When a match exists, `jsFindIndex` returns a natural index. -/
theorem jsFindIndex_mem {α : Type} (p : α → Bool) (l : List α)
    (hx : ∃ x ∈ l, p x = true) : ∃ i : ℕ, jsFindIndex p l = (i : ℤ) := by
  induction l with
  | nil => rcases hx with ⟨x, hxl, _⟩; cases hxl
  | cons a l ih =>
    by_cases hp : p a
    · exact ⟨0, by simp [jsFindIndex, hp]⟩
    · rcases hx with ⟨x, hxl, hpx⟩
      rcases List.mem_cons.mp hxl with rfl | hxl'
      · exact absurd hpx hp
      · rcases ih ⟨x, hxl', hpx⟩ with ⟨i, hi⟩
        refine ⟨i + 1, ?_⟩
        have hne : jsFindIndex p l ≠ -1 := by rw [hi]; omega
        simp [jsFindIndex, hp, if_neg hne, hi]

/-- Specification of `jsFindIndex` on success: the returned index holds the
first match, which is also what `find?` returns. -/
theorem jsFindIndex_spec {α : Type} (p : α → Bool) (l : List α) (i : ℕ)
    (h : jsFindIndex p l = (i : ℤ)) :
    ∃ e, l[i]? = some e ∧ p e = true ∧ l.find? p = some e
      ∧ ∀ j, j < i → ∀ ej, l[j]? = some ej → p ej = false := by
  induction l generalizing i with
  | nil =>
    exfalso
    rw [jsFindIndex] at h
    omega
  | cons a l ih =>
    by_cases hp : p a
    · rw [jsFindIndex, if_pos hp] at h
      have hi0 : i = 0 := by omega
      subst hi0
      exact ⟨a, by simp, hp, by rw [List.find?_cons_of_pos _ hp], by omega⟩
    · rw [jsFindIndex, if_neg hp] at h
      rcases jsFindIndex_cases p l with h1 | ⟨k, hk⟩
      · rw [if_pos h1] at h; omega
      · have hne : jsFindIndex p l ≠ -1 := by rw [hk]; omega
        rw [if_neg hne, hk] at h
        have hik : i = k + 1 := by omega
        subst hik
        rcases ih k hk with ⟨e, he, hpe, hfind, hbefore⟩
        refine ⟨e, by simpa using he, hpe,
          by rw [List.find?_cons_of_neg _ hp]; exact hfind, ?_⟩
        intro j hj ej hej
        cases j with
        | zero =>
          simp only [List.getElem?_cons_zero, Option.some_inj] at hej
          subst hej
          exact Bool.eq_false_iff.mpr hp
        | succ j' =>
          rw [List.getElem?_cons_succ] at hej
          exact hbefore j' (by omega) ej hej

/-- `find?` on a filtered list is `find?` with the conjunction of the two
predicates. -/
theorem find?_filter_and {α : Type} (p q : α → Bool) (l : List α) :
    (l.filter p).find? q = l.find? (fun x => p x && q x) := by
  induction l with
  | nil => rfl
  | cons a l ih =>
    by_cases hp : p a
    · by_cases hq : q a
      · rw [List.filter_cons_of_pos hp, List.find?_cons_of_pos _ hq,
          List.find?_cons_of_pos _ (by rw [hp, hq]; rfl)]
      · rw [List.filter_cons_of_pos hp,
          List.find?_cons_of_neg _ (by simpa using hq),
          List.find?_cons_of_neg _ (by simp [hq]), ih]
    · rw [List.filter_cons_of_neg (by simpa using hp),
        List.find?_cons_of_neg _ (by simp [hp]), ih]

/-- Claim C6: the per-exam ranking uses stored points only.  Each cohort
member's total for the exam is `(stored points1 || 0) + (stored points2 || 0)`
of the first prediction record matching the exam and the student (no
Point-Table fallback; a student with no record contributes 0); the cohort is
sorted descending by that total, ties keeping the cohort's input order; and
when the target student belongs to the cohort, `userRank` is the 1-based
position of the first ranking entry carrying the student's id, whose total is
also the reported `totalPoints`. -/
theorem perExamRanking_stored_points (students : List User)
    (preds : List Prediction) (examId : String) (uid : String)
    (hmem : uid ∈ students.map (fun s => s.id)) :
    (examRankings students preds examId).Pairwise
      (fun a b => b.totalPoints ≤ a.totalPoints)
    ∧ (∀ q : ℚ, (examRankings students preds examId).filter
          (fun e => decide (e.totalPoints = q)) =
        (examRankingsBase students preds examId).filter
          (fun e => decide (e.totalPoints = q)))
    ∧ examRankingsBase students preds examId = students.map (fun s =>
        { studentId := s.id
          totalPoints := jsOrZero ((preds.find? (fun p =>
              decide (p.examId = examId ∧ p.studentId = s.id))).bind
              (fun p => p.points1))
            + jsOrZero ((preds.find? (fun p =>
              decide (p.examId = examId ∧ p.studentId = s.id))).bind
              (fun p => p.points2)) })
    ∧ ∃ (i : ℕ) (e : ExamRankEntry),
        userExamRank students preds examId uid = (i : ℤ) + 1
        ∧ (examRankings students preds examId)[i]? = some e
        ∧ e.studentId = uid
        ∧ (∀ j, j < i → ∀ ej,
            (examRankings students preds examId)[j]? = some ej →
              ej.studentId ≠ uid)
        ∧ userExamTotalPoints students preds examId uid = e.totalPoints := by
  refine ⟨pairwise_sortDesc _ _,
    fun q => filter_sortDesc (fun e : ExamRankEntry => e.totalPoints) q _,
    ?_, ?_⟩
  · rw [examRankingsBase]
    apply List.map_congr_left
    intro s _
    rw [find?_filter_and]
    have hpred : (fun p : Prediction =>
        decide (p.examId = examId) && decide (p.studentId = s.id)) =
        (fun p : Prediction =>
          decide (p.examId = examId ∧ p.studentId = s.id)) := by
      funext p
      by_cases h1 : p.examId = examId <;> by_cases h2 : p.studentId = s.id <;>
        simp [h1, h2]
    rw [hpred]
  · have hentry : ∃ x ∈ examRankings students preds examId,
        (fun r : ExamRankEntry => decide (r.studentId = uid)) x = true := by
      rcases List.mem_map.mp hmem with ⟨s, hs, hsid⟩
      refine ⟨_, ((perm_sortDesc (fun e : ExamRankEntry => e.totalPoints)
          (examRankingsBase students preds examId)).mem_iff).mpr
        (List.mem_map_of_mem _ hs), ?_⟩
      simpa using hsid
    rcases jsFindIndex_mem _ _ hentry with ⟨i, hi⟩
    rcases jsFindIndex_spec _ _ i hi with ⟨e, he, hpe, hfind, hbefore⟩
    refine ⟨i, e, ?_, he, of_decide_eq_true hpe, ?_, ?_⟩
    · rw [userExamRank, hi]
    · intro j hj ej hej
      exact of_decide_eq_false (hbefore j hj ej hej)
    · rw [userExamTotalPoints, hfind]
      exact jsOrZero_some e.totalPoints

/-- Witness for C6 at a concrete one-student cohort with no predictions: the
membership hypothesis is discharged for student `s1`, and the rank position
is produced by the theorem. -/
theorem perExamRanking_stored_points_witness :
    ∃ (i : ℕ) (e : ExamRankEntry),
      userExamRank [{ id := "s1", username := "Ann", role := UserRole.student }]
          [] "e1" "s1" = (i : ℤ) + 1
      ∧ (examRankings
          [{ id := "s1", username := "Ann", role := UserRole.student }]
          [] "e1")[i]? = some e
      ∧ e.studentId = "s1"
      ∧ (∀ j, j < i → ∀ ej,
          (examRankings
            [{ id := "s1", username := "Ann", role := UserRole.student }]
            [] "e1")[j]? = some ej → ej.studentId ≠ "s1")
      ∧ userExamTotalPoints
          [{ id := "s1", username := "Ann", role := UserRole.student }]
          [] "e1" "s1" = e.totalPoints :=
  (perExamRanking_stored_points
    [{ id := "s1", username := "Ann", role := UserRole.student }]
    [] "e1" "s1" (by simp)).2.2.2

/-- Witness for C9's universal part at a concrete exam that does pass the
profile filter. -/
theorem profile_filter_vs_leaderboard_filter_witness :
    ({ id := "e2", title := "Geo", subject := "Math", description := none,
       date := 0, isClosed := true, closedAt := none,
       grades := some [("s1", some 2)] } : Exam).isClosed = true
    ∧ (gradeLookup
        { id := "e2", title := "Geo", subject := "Math", description := none,
          date := 0, isClosed := true, closedAt := none,
          grades := some [("s1", some 2)] } "s1").isSome = true :=
  profile_filter_vs_leaderboard_filter.1
    { id := "e2", title := "Geo", subject := "Math", description := none,
      date := 0, isClosed := true, closedAt := none,
      grades := some [("s1", some 2)] }
    "s1"
    (by simp +decide [profileIncludesExam, gradeLookup, jsTruthyGrade,
      List.lookup])
